import Mathlib

/-!
Verification of the `runwith` package: a shallow embedding of the
job-materialization and execution-dispatch machinery
(`runwith/common.py`, `runwith/runners/base.py`,
`runwith/runners/interpreter.py`, `runwith/runners/slurm.py`,
`runwith/decorator.py`).

The embedding models the on-disk state of one job's Asset Set (the five
artifact files rooted in one working directory) as an explicit state
value, and each operation of the source as a function on that state,
returning the events it performed.  File contents and timestamps are
abstracted away: the claims under verification quantify over presence
and absence of files, not their bytes.  External failure sources that
the Python code can only observe as exceptions (filesystem errors,
scheduler rejections) enter the model as explicit `Except` parameters.
-/

/-- The five artifact files of one Asset Set, as derived in
`Assets.__post_init__` (`common.py`): entry script `.target.py`,
serialized closure `.dump.pickle`, result `.ret.pickle`, launcher
`.sh`, log `.log`. -/
inductive AssetFile
  | target
  | dump
  | ret
  | exec
  | log
deriving DecidableEq, Repr

/-- The list `[self.target, self.dump, self.ret, self.exec, self.log]`
iterated by `Assets.__post_init__` and `Assets.cleanup`. -/
def assetFiles : List AssetFile :=
  [AssetFile.target, AssetFile.dump, AssetFile.ret, AssetFile.exec, AssetFile.log]

/-- On-disk state of one Asset Set's working directory:
whether the directory itself exists, which of the five tracked
artifact files are present, and how many untracked files (files not in
the tracked set, e.g. stray files another process dropped there) the
directory holds. -/
structure AssetsFS where
  dirExists : Bool
  present : List AssetFile
  untracked : Nat
deriving DecidableEq, Repr

/-- A fresh invocation's state: the randomly named working directory
does not exist yet and holds nothing. -/
def freshFS : AssetsFS := ⟨false, [], 0⟩

/-- Filesystem / backend events an operation can perform. -/
inductive Ev
  | mkdir
  | touch (f : AssetFile)
  | write (f : AssetFile)
  | chmod
  | unlink (f : AssetFile)
  | rmdir
  | execScript
  | srun
  | sbatch
  | readRet
  | cleanupCall
deriving DecidableEq, Repr

/-- `OSError` raised by `Path.rmdir()` when the directory is not
empty (the only error `Assets.cleanup` can encounter in this model). -/
inductive CleanupErr
  | directoryNotEmpty
deriving DecidableEq, Repr

/-- One iteration of the loop in `Assets.cleanup`
(`common.py` lines 64-66): `if path.exists(): path.unlink()`.
Threads the accumulated event list. -/
def unlinkStep (st : AssetsFS × List Ev) (f : AssetFile) : AssetsFS × List Ev :=
  if f ∈ st.1.present then
    ({ st.1 with present := st.1.present.filter (fun g => g ≠ f) },
      st.2 ++ [Ev.unlink f])
  else
    st

/-- `Path.rmdir` only succeeds on an empty directory. -/
def dirEmpty (fs : AssetsFS) : Bool :=
  fs.present.isEmpty && fs.untracked == 0

/-- `Assets.cleanup` (`common.py` lines 60-68): unlink each of the five
tracked files that exists, then, if the parent directory still exists,
call `rmdir` on it — which raises `OSError` when the directory is not
empty, and removes it otherwise. -/
def Assets.cleanup (fs : AssetsFS) : Except CleanupErr (AssetsFS × List Ev) :=
  let st := assetFiles.foldl unlinkStep (fs, [])
  if st.1.dirExists then
    if dirEmpty st.1 then
      Except.ok ({ st.1 with dirExists := false }, st.2 ++ [Ev.rmdir])
    else
      Except.error CleanupErr.directoryNotEmpty
  else
    Except.ok (st.1, st.2)

theorem unlinkStep_present (st : AssetsFS × List Ev) (f : AssetFile) :
    (unlinkStep st f).1.present = st.1.present.filter (fun g => g ≠ f) := by
  unfold unlinkStep
  by_cases h : f ∈ st.1.present
  · simp [h]
  · simp only [h, ite_false, if_neg, not_false_iff]
    rw [eq_comm, List.filter_eq_self]
    intro a ha
    have hne : a ≠ f := fun hf => h (hf ▸ ha)
    simp [hne]

theorem unlinkStep_frame (st : AssetsFS × List Ev) (f : AssetFile) :
    (unlinkStep st f).1.dirExists = st.1.dirExists ∧
    (unlinkStep st f).1.untracked = st.1.untracked := by
  unfold unlinkStep
  by_cases h : f ∈ st.1.present <;> simp [h]

/-- After the unlink loop of `cleanup`, every tracked file is gone and
the directory / untracked count are untouched. -/
theorem cleanup_loop_spec (fs : AssetsFS) :
    (assetFiles.foldl unlinkStep (fs, [])).1.present = [] ∧
    (assetFiles.foldl unlinkStep (fs, [])).1.dirExists = fs.dirExists ∧
    (assetFiles.foldl unlinkStep (fs, [])).1.untracked = fs.untracked := by
  have hpres : ∀ st : AssetsFS × List Ev,
      (assetFiles.foldl unlinkStep st).1.present =
        ((((st.1.present.filter (fun g => g ≠ AssetFile.target)).filter
            (fun g => g ≠ AssetFile.dump)).filter
            (fun g => g ≠ AssetFile.ret)).filter
            (fun g => g ≠ AssetFile.exec)).filter
            (fun g => g ≠ AssetFile.log) := by
    intro st
    simp only [assetFiles, List.foldl]
    rw [unlinkStep_present, unlinkStep_present, unlinkStep_present,
      unlinkStep_present, unlinkStep_present]
  have hframe : ∀ st : AssetsFS × List Ev,
      (assetFiles.foldl unlinkStep st).1.dirExists = st.1.dirExists ∧
      (assetFiles.foldl unlinkStep st).1.untracked = st.1.untracked := by
    intro st
    simp only [assetFiles, List.foldl]
    constructor
    · rw [(unlinkStep_frame _ _).1, (unlinkStep_frame _ _).1,
        (unlinkStep_frame _ _).1, (unlinkStep_frame _ _).1,
        (unlinkStep_frame _ _).1]
    · rw [(unlinkStep_frame _ _).2, (unlinkStep_frame _ _).2,
        (unlinkStep_frame _ _).2, (unlinkStep_frame _ _).2,
        (unlinkStep_frame _ _).2]
  refine ⟨?_, (hframe (fs, [])).1, (hframe (fs, [])).2⟩
  rw [hpres (fs, [])]
  rw [List.eq_nil_iff_forall_not_mem]
  intro a ha
  simp only [List.mem_filter, decide_eq_true_eq] at ha
  obtain ⟨⟨⟨⟨⟨_, ht⟩, hd⟩, hr⟩, he⟩, hl⟩ := ha
  cases a with
  | target => exact ht rfl
  | dump => exact hd rfl
  | ret => exact hr rfl
  | exec => exact he rfl
  | log => exact hl rfl

theorem cleanup_ok_state (fs fs' : AssetsFS) (evs : List Ev)
    (h : Assets.cleanup fs = Except.ok (fs', evs)) :
    fs'.present = [] ∧ fs'.dirExists = false := by
  obtain ⟨hp, hd, hu⟩ := cleanup_loop_spec fs
  simp only [Assets.cleanup] at h
  cases hdir : (assetFiles.foldl unlinkStep (fs, [])).1.dirExists with
  | false =>
    rw [if_neg (by rw [hdir]; simp)] at h
    have h1 : fs' = (assetFiles.foldl unlinkStep (fs, [])).1 :=
      congrArg Prod.fst (Except.ok.inj h).symm
    rw [h1]
    exact ⟨hp, hdir⟩
  | true =>
    rw [if_pos hdir] at h
    cases hde : dirEmpty (assetFiles.foldl unlinkStep (fs, [])).1 with
    | false =>
      rw [if_neg (by rw [hde]; simp)] at h
      exact absurd h (by simp)
    | true =>
      rw [if_pos hde] at h
      have h1 : fs' =
          { (assetFiles.foldl unlinkStep (fs, [])).1 with dirExists := false } :=
        congrArg Prod.fst (Except.ok.inj h).symm
      rw [h1]
      exact ⟨hp, rfl⟩

/-- A cleanup pass over a state with no tracked files present performs
no unlink at all. -/
theorem cleanup_loop_skip (fs : AssetsFS) (hpres : fs.present = []) :
    assetFiles.foldl unlinkStep (fs, []) = (fs, []) := by
  simp [assetFiles, List.foldl, unlinkStep, hpres]

/-- C3: `Assets.cleanup` deletes every tracked file that is present,
but when the parent directory still exists and is not empty afterwards
the `rmdir` call raises `OSError` — the removal is not silently
skipped.  The claim's silent-skip reading fails; this theorem gives
the actual dichotomy: either cleanup succeeds (all five files gone,
directory gone), or the directory existed, was non-empty, and cleanup
raised. -/
theorem cleanup_dichotomy (fs : AssetsFS) :
    (∃ fs' evs, Assets.cleanup fs = Except.ok (fs', evs) ∧
      fs'.present = [] ∧ fs'.dirExists = false) ∨
    (fs.dirExists = true ∧ fs.untracked ≠ 0 ∧
      Assets.cleanup fs = Except.error CleanupErr.directoryNotEmpty) := by
  obtain ⟨hp, hd, hu⟩ := cleanup_loop_spec fs
  cases hdir : fs.dirExists with
  | false =>
    left
    refine ⟨(assetFiles.foldl unlinkStep (fs, [])).1,
      (assetFiles.foldl unlinkStep (fs, [])).2, ?_, hp, hd.trans hdir⟩
    simp only [Assets.cleanup]
    rw [if_neg (by rw [hd, hdir]; simp)]
  | true =>
    by_cases hunt : fs.untracked = 0
    · left
      have hde : dirEmpty (assetFiles.foldl unlinkStep (fs, [])).1 = true := by
        simp [dirEmpty, hp, hu, hunt]
      refine ⟨{ (assetFiles.foldl unlinkStep (fs, [])).1 with dirExists := false },
        (assetFiles.foldl unlinkStep (fs, [])).2 ++ [Ev.rmdir], ?_, ?_, rfl⟩
      · simp only [Assets.cleanup]
        rw [if_pos (hd.trans hdir), if_pos hde]
      · simpa using hp
    · right
      have hde : dirEmpty (assetFiles.foldl unlinkStep (fs, [])).1 = false := by
        simp [dirEmpty, hp, hu, hunt]
      refine ⟨rfl, hunt, ?_⟩
      simp only [Assets.cleanup]
      rw [if_pos (hd.trans hdir), if_neg (by rw [hde]; simp)]

/-- C3 counterexample: on a state where the directory holds one file
outside the tracked set, `cleanup()` raises (`rmdir` fails with
`OSError: directory not empty`) instead of silently skipping the
removal. -/
theorem cleanup_nonempty_raises :
    Assets.cleanup ⟨true, assetFiles, 1⟩ =
      Except.error CleanupErr.directoryNotEmpty := by
  rfl

/-- C10: once a `cleanup()` call has removed all five files and the
parent directory, a second `cleanup()` on the same Asset Set performs
no deletion events, does not raise, and leaves the state unchanged:
every existence check fails and the directory check fails. -/
theorem cleanup_idempotent (fs fs' : AssetsFS) (evs : List Ev)
    (_hall : fs.present = assetFiles) (_hdir : fs.dirExists = true)
    (h : Assets.cleanup fs = Except.ok (fs', evs)) :
    Assets.cleanup fs' = Except.ok (fs', []) := by
  obtain ⟨hp, hd⟩ := cleanup_ok_state fs fs' evs h
  simp only [Assets.cleanup, cleanup_loop_skip fs' hp, hd,
    Bool.false_eq_true, if_false]

/-- C10 witness: starting from the directory holding exactly the five
tracked files, the first cleanup removes everything and the second is
a no-op. -/
theorem cleanup_idempotent_witness :
    Assets.cleanup ⟨false, [], 0⟩ = Except.ok (⟨false, [], 0⟩, []) :=
  cleanup_idempotent ⟨true, assetFiles, 0⟩ ⟨false, [], 0⟩
    [Ev.unlink AssetFile.target, Ev.unlink AssetFile.dump,
      Ev.unlink AssetFile.ret, Ev.unlink AssetFile.exec,
      Ev.unlink AssetFile.log, Ev.rmdir]
    rfl rfl (by rfl)

/-- Does `pat` occur at the head of `l`?  Auxiliary for the Python
substring test `pat in s`. -/
def prefixMatch : List Char → List Char → Bool
  | [], _ => true
  | _ :: _, [] => false
  | p :: ps, c :: cs => p == c && prefixMatch ps cs

/-- Does `pat` occur anywhere in `l`? -/
def containsSeq (pat : List Char) : List Char → Bool
  | [] => pat.isEmpty
  | c :: cs => prefixMatch pat (c :: cs) || containsSeq pat cs

/-- The Python membership test `pat in s` on strings. -/
def strContains (s pat : String) : Bool :=
  containsSeq pat.toList s.toList

/-- `EXEC_TEMPLATE` (`common.py` lines 15-18), the default launcher
template. -/
def EXEC_TEMPLATE : String := "#!/bin/bash\npython {target}\n\n"

/-- `TARGET_TEMPLATE` (`common.py` lines 21-32), the default entry
template. -/
def TARGET_TEMPLATE : String := "import sys\nimport pickle\nfrom pathlib import Path\n\nwith open(\"{pickle_path}\", \"rb\") as f:\n    func = pickle.load(f)\n    ret = func()\n    ret_path = Path(\"{ret_path}\")\n    with open(ret_path, \"wb\") as f:\n        pickle.dump(ret, f)\n\n"

/-- `AssertionError` raised by the template checks at the top of
`prepare` (`common.py` lines 98-106); the payload names the missing
placeholder. -/
inductive PrepErr
  | assertionError (missing : String)
deriving DecidableEq, Repr

/-- Creating a file via `write_bytes` / `write_text`: the file becomes
present (content is abstracted away). -/
def writeFile (fs : AssetsFS) (f : AssetFile) : AssetsFS :=
  if f ∈ fs.present then fs else { fs with present := fs.present ++ [f] }

/-- `prepare` (`common.py` lines 75-136) acting on the working
directory of the fresh random base path.  Mirrors the source order:
three placeholder assertions (before any I/O); `Assets.__post_init__`
(mkdir with `exist_ok`, then touch each of the five paths that already
exists); write the closure dump; write the rendered entry script;
write the rendered launcher script; chmod the launcher.  Script
contents and the serialized closure bytes are abstracted;
serialization itself is assumed to succeed.  Returns the outcome, the
resulting state, and the I/O events performed. -/
def prepare (target_template exec_template : String) (fs : AssetsFS) :
    Except PrepErr Unit × AssetsFS × List Ev :=
  if !(strContains target_template "{pickle_path}") then
    (Except.error (PrepErr.assertionError "{pickle_path}"), fs, [])
  else if !(strContains target_template "{ret_path}") then
    (Except.error (PrepErr.assertionError "{ret_path}"), fs, [])
  else if !(strContains exec_template "{target}") then
    (Except.error (PrepErr.assertionError "{target}"), fs, [])
  else
    let fs1 : AssetsFS := { fs with dirExists := true }
    let touchEvs := (assetFiles.filter (fun f => f ∈ fs1.present)).map Ev.touch
    let fs2 := writeFile (writeFile (writeFile fs1 AssetFile.dump)
      AssetFile.target) AssetFile.exec
    (Except.ok (), fs2,
      [Ev.mkdir] ++ touchEvs ++
        [Ev.write AssetFile.dump, Ev.write AssetFile.target,
          Ev.write AssetFile.exec, Ev.chmod])

/-- C5: whenever the entry template misses `{pickle_path}` or
`{ret_path}`, or the launcher template misses `{target}`, `prepare`
raises its assertion before performing any I/O: the state is returned
unchanged and the event list is empty, so no file is written and no
working directory is created. -/
theorem prepare_missing_placeholder (tt et : String) (fs : AssetsFS)
    (h : strContains tt "{pickle_path}" = false ∨
      strContains tt "{ret_path}" = false ∨
      strContains et "{target}" = false) :
    (∃ e, (prepare tt et fs).1 = Except.error e) ∧
    (prepare tt et fs).2.1 = fs ∧ (prepare tt et fs).2.2 = [] := by
  rcases h with h | h | h
  · simp [prepare, h]
  · by_cases h1 : strContains tt "{pickle_path}" = false
    · simp [prepare, h1]
    · rw [Bool.not_eq_false] at h1
      simp [prepare, h1, h]
  · by_cases h1 : strContains tt "{pickle_path}" = false
    · simp [prepare, h1]
    · rw [Bool.not_eq_false] at h1
      by_cases h2 : strContains tt "{ret_path}" = false
      · simp [prepare, h1, h2]
      · rw [Bool.not_eq_false] at h2
        simp [prepare, h1, h2, h]

/-- C5 witness: a template with no placeholders at all makes `prepare`
fail on a fresh state with no I/O performed. -/
theorem prepare_missing_placeholder_witness :
    (∃ e, (prepare "echo hi" EXEC_TEMPLATE freshFS).1 = Except.error e) ∧
    (prepare "echo hi" EXEC_TEMPLATE freshFS).2.1 = freshFS ∧
    (prepare "echo hi" EXEC_TEMPLATE freshFS).2.2 = [] :=
  prepare_missing_placeholder "echo hi" EXEC_TEMPLATE freshFS
    (Or.inl (by decide))

/-- The default templates contain all required placeholders, so
`prepare` with the defaults always succeeds. -/
theorem prepare_defaults_ok (fs : AssetsFS) :
    (prepare TARGET_TEMPLATE EXEC_TEMPLATE fs).1 = Except.ok () := by
  have h1 : strContains TARGET_TEMPLATE "{pickle_path}" = true := by decide
  have h2 : strContains TARGET_TEMPLATE "{ret_path}" = true := by decide
  have h3 : strContains EXEC_TEMPLATE "{target}" = true := by decide
  simp [prepare, h1, h2, h3]

/-- On a fresh state, `prepare` with the default templates creates the
directory and writes exactly the dump, entry script and launcher. -/
theorem prepare_defaults_fresh :
    prepare TARGET_TEMPLATE EXEC_TEMPLATE freshFS =
      (Except.ok (),
        ⟨true, [AssetFile.dump, AssetFile.target, AssetFile.exec], 0⟩,
        [Ev.mkdir, Ev.write AssetFile.dump, Ev.write AssetFile.target,
          Ev.write AssetFile.exec, Ev.chmod]) := by
  rfl

/-- Exception raised while reading or deserializing the result file
(`cloudpickle.loads(assets.ret.read_bytes())` in `base.py`,
`load_return(assets.ret)` in `slurm.py`): the file may be missing or
corrupt. -/
inductive LoadErr
  | exc (msg : String)
deriving DecidableEq, Repr

/-- `Runner.run` (`base.py` lines 37-59) after asset preparation,
parameterized by the outcome of deserializing the result file.  The
source executes the launcher, then wraps only the deserialization in
`try/except`: on exception it calls `assets.cleanup()` and re-raises;
on success it calls `assets.cleanup()` and returns.  The trace records
the launcher execution, the result read, and each `cleanup()`
invocation (the cleanup call itself is assumed not to raise). -/
def Runner.run (α : Type) (deser : Except LoadErr α) :
    Except LoadErr α × List Ev :=
  match deser with
  | Except.error e =>
    (Except.error e, [Ev.execScript, Ev.readRet, Ev.cleanupCall])
  | Except.ok ret =>
    (Except.ok ret, [Ev.execScript, Ev.readRet, Ev.cleanupCall])

/-- `SlurmRunner.run` (`slurm.py` lines 179-192) after asset
preparation: it calls `self.slurm.srun(...)`, then
`ret = load_return(assets.ret)` with no `try/except`, then
`assets.cleanup()`.  When deserialization raises, the exception
propagates and the `cleanup()` line is never reached. -/
def SlurmRunner.run (α : Type) (deser : Except LoadErr α) :
    Except LoadErr α × List Ev :=
  match deser with
  | Except.error e => (Except.error e, [Ev.srun, Ev.readRet])
  | Except.ok ret => (Except.ok ret, [Ev.srun, Ev.readRet, Ev.cleanupCall])

/-- C1 counterexample: on the Scheduler Runner, a `run()` whose result
deserialization raises performs zero `cleanup()` invocations — not
exactly one — while the exception propagates. -/
theorem slurm_run_error_skips_cleanup :
    ((SlurmRunner.run Nat (Except.error (LoadErr.exc "bad pickle"))).2.count
      Ev.cleanupCall = 0) ∧
    (SlurmRunner.run Nat (Except.error (LoadErr.exc "bad pickle"))).1 =
      Except.error (LoadErr.exc "bad pickle") := by
  exact ⟨by decide, rfl⟩

/-- C1 (amended): for the Local/Interpreter `Runner.run`, whether
deserialization succeeds or raises, `cleanup()` is invoked exactly
once before `run()` returns or raises, the cleanup is the last event
before the re-raise, and the exception is still re-raised.  For the
Scheduler Runner's `run()`, cleanup is invoked exactly once on the
success path only; when deserialization raises, the exception
propagates without any cleanup during `run()`. -/
theorem run_cleanup_discipline (α : Type) (deser : Except LoadErr α) :
    (Runner.run α deser).1 = deser ∧
    (Runner.run α deser).2.count Ev.cleanupCall = 1 ∧
    (Runner.run α deser).2.getLast? = some Ev.cleanupCall ∧
    (SlurmRunner.run α deser).1 = deser ∧
    (SlurmRunner.run α deser).2.count Ev.cleanupCall =
      (match deser with | Except.ok _ => 1 | Except.error _ => 0) := by
  cases deser with
  | ok v => exact ⟨rfl, rfl, rfl, rfl, rfl⟩
  | error e => exact ⟨rfl, rfl, rfl, rfl, rfl⟩

/-- A value held by one `SlurmOptions` field, as seen by
`dataclasses.asdict`: Python `None`, a string, an integer, or a
boolean.  The `to_dict` filter tests `v is not None`; only
`SVal.none` is `None` — in particular `SVal.bool false` is not. -/
inductive SVal
  | none
  | str (s : String)
  | int (n : Int)
  | bool (b : Bool)
deriving DecidableEq, Repr

def optStr : Option String → SVal
  | Option.none => SVal.none
  | Option.some s => SVal.str s

def optInt : Option Int → SVal
  | Option.none => SVal.none
  | Option.some n => SVal.int n

/-- `SlurmOptions` (`slurm.py` lines 15-117): the flat dataclass of
slurm directives, every `Optional[...]` field defaulting to `None`
and every `bool` field defaulting to `False`, in source order.  The
Python keyword-collision-free name `export_` stands for the source
field `export`. -/
structure SlurmOptions where
  account : Option String := Option.none
  acctg_freq : Option String := Option.none
  array : Option String := Option.none
  batch : Option String := Option.none
  bb : Option String := Option.none
  bbf : Option String := Option.none
  begin_ : Option String := Option.none
  chdir : Option String := Option.none
  cluster_constraint : Option String := Option.none
  clusters : Option String := Option.none
  comment : Option String := Option.none
  constraint : Option String := Option.none
  container : Option String := Option.none
  container_id : Option String := Option.none
  contiguous : Bool := false
  core_spec : Option Int := Option.none
  cores_per_socket : Option Int := Option.none
  cpu_freq : Option String := Option.none
  cpus_per_gpu : Option Int := Option.none
  cpus_per_task : Option Int := Option.none
  deadline : Option String := Option.none
  delay_boot : Option Int := Option.none
  dependency : Option String := Option.none
  distribution : Option String := Option.none
  error : Option String := Option.none
  exclude : Option String := Option.none
  exclusive : Option String := Option.none
  export_ : Option String := Option.none
  export_file : Option String := Option.none
  extra : Option String := Option.none
  extra_node_info : Option String := Option.none
  get_user_env : Option String := Option.none
  gid : Option String := Option.none
  gpu_bind : Option String := Option.none
  gpu_freq : Option String := Option.none
  gpus : Option String := Option.none
  gpus_per_node : Option String := Option.none
  gpus_per_socket : Option String := Option.none
  gpus_per_task : Option String := Option.none
  gres : Option String := Option.none
  gres_flags : Option String := Option.none
  hold : Bool := false
  ignore_pbs : Bool := false
  input : Option String := Option.none
  job_name : Option String := Option.none
  kill_on_invalid_dep : Option String := Option.none
  licenses : Option String := Option.none
  mail_type : Option String := Option.none
  mail_user : Option String := Option.none
  mcs_label : Option String := Option.none
  mem : Option String := Option.none
  mem_bind : Option String := Option.none
  mem_per_cpu : Option String := Option.none
  mem_per_gpu : Option String := Option.none
  mincpus : Option Int := Option.none
  network : Option String := Option.none
  nice : Option Int := Option.none
  no_kill : Bool := false
  no_requeue : Bool := false
  nodefile : Option String := Option.none
  nodelist : Option String := Option.none
  nodes : Option String := Option.none
  ntasks : Option Int := Option.none
  ntasks_per_core : Option Int := Option.none
  ntasks_per_gpu : Option Int := Option.none
  ntasks_per_node : Option Int := Option.none
  ntasks_per_socket : Option Int := Option.none
  open_mode : Option String := Option.none
  output : Option String := Option.none
  overcommit : Bool := false
  partition : Option String := Option.none
  power : Option String := Option.none
  prefer : Option String := Option.none
  priority : Option String := Option.none
  profile : Option String := Option.none
  propagate : Option String := Option.none
  qos : Option String := Option.none
  quiet : Bool := false
  reboot : Bool := false
  requeue : Bool := false
  reservation : Option String := Option.none
  signal : Option String := Option.none
  sockets_per_node : Option Int := Option.none
  spread_job : Bool := false
  switches : Option String := Option.none
  test_only : Bool := false
  thread_spec : Option Int := Option.none
  threads_per_core : Option Int := Option.none
  time : Option String := Option.none
  time_min : Option String := Option.none
  tmp : Option String := Option.none
  tres_per_task : Option String := Option.none
  uid : Option String := Option.none
  use_min_nodes : Bool := false
  verbose : Bool := false
  wait : Bool := false
  wait_all_nodes : Option Int := Option.none
  wckey : Option String := Option.none
  wrap : Option String := Option.none
deriving DecidableEq, Repr

/-- `SlurmOptions()` with no arguments — the default used by
`SlurmRunner.__init__`; no field is explicitly set by the caller. -/
def SlurmOptions.defaultOptions : SlurmOptions := {}

/-- `dataclasses.asdict(self)`: the full field-name → value mapping in
declaration order, before any filtering. -/
def SlurmOptions.asdict (o : SlurmOptions) : List (String × SVal) :=
  [("account", optStr o.account),
   ("acctg_freq", optStr o.acctg_freq),
   ("array", optStr o.array),
   ("batch", optStr o.batch),
   ("bb", optStr o.bb),
   ("bbf", optStr o.bbf),
   ("begin", optStr o.begin_),
   ("chdir", optStr o.chdir),
   ("cluster_constraint", optStr o.cluster_constraint),
   ("clusters", optStr o.clusters),
   ("comment", optStr o.comment),
   ("constraint", optStr o.constraint),
   ("container", optStr o.container),
   ("container_id", optStr o.container_id),
   ("contiguous", SVal.bool o.contiguous),
   ("core_spec", optInt o.core_spec),
   ("cores_per_socket", optInt o.cores_per_socket),
   ("cpu_freq", optStr o.cpu_freq),
   ("cpus_per_gpu", optInt o.cpus_per_gpu),
   ("cpus_per_task", optInt o.cpus_per_task),
   ("deadline", optStr o.deadline),
   ("delay_boot", optInt o.delay_boot),
   ("dependency", optStr o.dependency),
   ("distribution", optStr o.distribution),
   ("error", optStr o.error),
   ("exclude", optStr o.exclude),
   ("exclusive", optStr o.exclusive),
   ("export", optStr o.export_),
   ("export_file", optStr o.export_file),
   ("extra", optStr o.extra),
   ("extra_node_info", optStr o.extra_node_info),
   ("get_user_env", optStr o.get_user_env),
   ("gid", optStr o.gid),
   ("gpu_bind", optStr o.gpu_bind),
   ("gpu_freq", optStr o.gpu_freq),
   ("gpus", optStr o.gpus),
   ("gpus_per_node", optStr o.gpus_per_node),
   ("gpus_per_socket", optStr o.gpus_per_socket),
   ("gpus_per_task", optStr o.gpus_per_task),
   ("gres", optStr o.gres),
   ("gres_flags", optStr o.gres_flags),
   ("hold", SVal.bool o.hold),
   ("ignore_pbs", SVal.bool o.ignore_pbs),
   ("input", optStr o.input),
   ("job_name", optStr o.job_name),
   ("kill_on_invalid_dep", optStr o.kill_on_invalid_dep),
   ("licenses", optStr o.licenses),
   ("mail_type", optStr o.mail_type),
   ("mail_user", optStr o.mail_user),
   ("mcs_label", optStr o.mcs_label),
   ("mem", optStr o.mem),
   ("mem_bind", optStr o.mem_bind),
   ("mem_per_cpu", optStr o.mem_per_cpu),
   ("mem_per_gpu", optStr o.mem_per_gpu),
   ("mincpus", optInt o.mincpus),
   ("network", optStr o.network),
   ("nice", optInt o.nice),
   ("no_kill", SVal.bool o.no_kill),
   ("no_requeue", SVal.bool o.no_requeue),
   ("nodefile", optStr o.nodefile),
   ("nodelist", optStr o.nodelist),
   ("nodes", optStr o.nodes),
   ("ntasks", optInt o.ntasks),
   ("ntasks_per_core", optInt o.ntasks_per_core),
   ("ntasks_per_gpu", optInt o.ntasks_per_gpu),
   ("ntasks_per_node", optInt o.ntasks_per_node),
   ("ntasks_per_socket", optInt o.ntasks_per_socket),
   ("open_mode", optStr o.open_mode),
   ("output", optStr o.output),
   ("overcommit", SVal.bool o.overcommit),
   ("partition", optStr o.partition),
   ("power", optStr o.power),
   ("prefer", optStr o.prefer),
   ("priority", optStr o.priority),
   ("profile", optStr o.profile),
   ("propagate", optStr o.propagate),
   ("qos", optStr o.qos),
   ("quiet", SVal.bool o.quiet),
   ("reboot", SVal.bool o.reboot),
   ("requeue", SVal.bool o.requeue),
   ("reservation", optStr o.reservation),
   ("signal", optStr o.signal),
   ("sockets_per_node", optInt o.sockets_per_node),
   ("spread_job", SVal.bool o.spread_job),
   ("switches", optStr o.switches),
   ("test_only", SVal.bool o.test_only),
   ("thread_spec", optInt o.thread_spec),
   ("threads_per_core", optInt o.threads_per_core),
   ("time", optStr o.time),
   ("time_min", optStr o.time_min),
   ("tmp", optStr o.tmp),
   ("tres_per_task", optStr o.tres_per_task),
   ("uid", optStr o.uid),
   ("use_min_nodes", SVal.bool o.use_min_nodes),
   ("verbose", SVal.bool o.verbose),
   ("wait", SVal.bool o.wait),
   ("wait_all_nodes", optInt o.wait_all_nodes),
   ("wckey", optStr o.wckey),
   ("wrap", optStr o.wrap)]

/-- `SlurmOptions.to_dict` (`slurm.py` lines 146-153):
`{k: v for k, v in asdict(self).items() if v is not None}`. -/
def SlurmOptions.to_dict (o : SlurmOptions) : List (String × SVal) :=
  o.asdict.filter (fun kv => kv.2 ≠ SVal.none)

/-- C2 counterexample: on the default-constructed options — the caller
set no field at all — `to_dict` is not the empty mapping: the 14
boolean directives default to `False`, and `False is not None`, so they
all pass the filter; e.g. `"contiguous"` is a key.  The claim that the
key set is exactly the explicitly-set subset fails on this instance,
whose explicitly-set subset is empty. -/
theorem to_dict_default_not_empty :
    ("contiguous", SVal.bool false) ∈ SlurmOptions.defaultOptions.to_dict ∧
    SlurmOptions.defaultOptions.to_dict.length = 14 := by
  decide

/-- C2 (amended): the key set of `to_dict` is exactly the set of
directive names whose value in `asdict` is not `None`: an `Optional`
field appears iff it holds a value (so a field explicitly set to
`None` is still omitted), and every `bool` field always appears —
`"contiguous"` is emitted with the field's current value even when the
field was left at its default. -/
theorem to_dict_keys (o : SlurmOptions) (k : String) :
    (k ∈ o.to_dict.map Prod.fst ↔
      ∃ v, (k, v) ∈ o.asdict ∧ v ≠ SVal.none) ∧
    ("contiguous", SVal.bool o.contiguous) ∈ o.to_dict := by
  constructor
  · constructor
    · intro hk
      obtain ⟨kv, hkv, hfst⟩ := List.mem_map.mp hk
      obtain ⟨hmem, hp⟩ := List.mem_filter.mp hkv
      subst hfst
      exact ⟨kv.2, hmem, by simpa using hp⟩
    · rintro ⟨v, hmem, hv⟩
      exact List.mem_map.mpr
        ⟨(k, v), List.mem_filter.mpr ⟨hmem, by simpa using hv⟩, rfl⟩
  · refine List.mem_filter.mpr ⟨?_, by simp⟩
    simp [SlurmOptions.asdict]

/-- An arbitrary Python exception caught by the `except Exception`
block of `SlurmRunner.submit`; the payload is its printed form. -/
inductive SubmitErr
  | exc (msg : String)
deriving DecidableEq, Repr

/-- External failure sources of one `SlurmRunner.submit` call, each an
explicit outcome: filesystem errors during `prepare`'s writes, errors
while rendering/overwriting the launcher script
(`self.exec_template.format` / `assets.exec.write_text`), and the
outcome of `self.slurm.sbatch` (a job id from the scheduler, or an
exception). -/
structure SubmitEnv where
  prepareOutcome : Except SubmitErr Unit
  writeOutcome : Except SubmitErr Unit
  sbatchOutcome : Except SubmitErr Int
deriving Repr

/-- What one `SlurmRunner.submit` call produced: the returned job id,
the final on-disk state, the lines printed to stdout, and the events
performed. -/
structure SubmitResult where
  jobId : Int
  fs : AssetsFS
  printed : List String
  events : List Ev
deriving Repr

def SubmitErr.msg : SubmitErr → String
  | SubmitErr.exc m => m

def PrepErr.msg : PrepErr → String
  | PrepErr.assertionError missing =>
    "template must contain " ++ missing ++ " placeholder"

/-- `SlurmRunner.submit` (`slurm.py` lines 194-209): inside
`try/except` it calls `prepare(self.func, self.args, self.kwargs)`
with the default templates, renders the launcher from the runner's
template, overwrites `assets.exec`, and calls `self.slurm.sbatch`; on
any exception it prints the exception and sets `job_id = -1`.  The
returned record carries the id, state, printed output, and events. -/
def SlurmRunner.submit (env : SubmitEnv) (fs0 : AssetsFS) : SubmitResult :=
  match prepare TARGET_TEMPLATE EXEC_TEMPLATE fs0 with
  | (Except.error e, fs1, evs1) => ⟨-1, fs1, [e.msg], evs1⟩
  | (Except.ok _, fs1, evs1) =>
    match env.prepareOutcome with
    | Except.error e => ⟨-1, fs1, [e.msg], evs1⟩
    | Except.ok _ =>
      match env.writeOutcome with
      | Except.error e => ⟨-1, fs1, [e.msg], evs1⟩
      | Except.ok _ =>
        match env.sbatchOutcome with
        | Except.error e =>
          ⟨-1, writeFile fs1 AssetFile.exec, [e.msg],
            evs1 ++ [Ev.write AssetFile.exec, Ev.sbatch]⟩
        | Except.ok jid =>
          ⟨jid, writeFile fs1 AssetFile.exec, [],
            evs1 ++ [Ev.write AssetFile.exec, Ev.sbatch]⟩

/-- Some step of the `try` block of `submit` raised. -/
def SubmitEnv.failed (env : SubmitEnv) : Prop :=
  (∃ e, env.prepareOutcome = Except.error e) ∨
  (∃ e, env.writeOutcome = Except.error e) ∨
  (∃ e, env.sbatchOutcome = Except.error e)

/-- Shared inversion: when any step of `submit` raises, the except
block prints exactly one line and returns the sentinel `-1`. -/
theorem submit_failed_inv (env : SubmitEnv) (fs0 : AssetsFS)
    (h : SubmitEnv.failed env) :
    (SlurmRunner.submit env fs0).jobId = -1 ∧
    (SlurmRunner.submit env fs0).printed.length = 1 := by
  rcases hpe : prepare TARGET_TEMPLATE EXEC_TEMPLATE fs0 with ⟨r, fs1, evs1⟩
  have hr : r = Except.ok () := by
    have := prepare_defaults_ok fs0
    rw [hpe] at this
    exact this
  subst hr
  unfold SlurmRunner.submit
  rw [hpe]
  rcases h with ⟨e, he⟩ | ⟨e, he⟩ | ⟨e, he⟩
  · rw [he]
    exact ⟨rfl, rfl⟩
  · cases hpo : env.prepareOutcome with
    | error e2 => exact ⟨rfl, rfl⟩
    | ok u => rw [he]; exact ⟨rfl, rfl⟩
  · cases hpo : env.prepareOutcome with
    | error e2 => exact ⟨rfl, rfl⟩
    | ok u =>
      cases hwo : env.writeOutcome with
      | error e3 => exact ⟨rfl, rfl⟩
      | ok u2 => rw [he]; exact ⟨rfl, rfl⟩

/-- C4: for every exception raised during a `submit` call — asset
preparation, launcher rendering, or the scheduler enqueue — `submit`
does not propagate the exception (it is a total function into
`SubmitResult`, never an `Except`): it prints exactly one failure
line and returns the sentinel job id `-1`. -/
theorem submit_failure_sentinel (env : SubmitEnv) (fs0 : AssetsFS)
    (h : SubmitEnv.failed env) :
    (SlurmRunner.submit env fs0).jobId = -1 ∧
    (SlurmRunner.submit env fs0).printed.length = 1 :=
  submit_failed_inv env fs0 h

/-- C4 witness: a scheduler rejection on a fresh state yields the
sentinel and one printed line. -/
theorem submit_failure_sentinel_witness :
    (SlurmRunner.submit
      ⟨Except.ok (), Except.ok (),
        Except.error (SubmitErr.exc "sbatch: error: invalid partition")⟩
      freshFS).jobId = -1 ∧
    (SlurmRunner.submit
      ⟨Except.ok (), Except.ok (),
        Except.error (SubmitErr.exc "sbatch: error: invalid partition")⟩
      freshFS).printed.length = 1 :=
  submit_failure_sentinel
    ⟨Except.ok (), Except.ok (),
      Except.error (SubmitErr.exc "sbatch: error: invalid partition")⟩
    freshFS (Or.inr (Or.inr ⟨SubmitErr.exc "sbatch: error: invalid partition", rfl⟩))

/-- Events that destroy or consume assets: file deletion, directory
removal, a read of the result file, or a `cleanup()` invocation. -/
def isTeardown : Ev → Bool
  | Ev.unlink _ => true
  | Ev.rmdir => true
  | Ev.readRet => true
  | Ev.cleanupCall => true
  | _ => false

theorem writeFile_mem (fs : AssetsFS) (f : AssetFile) :
    f ∈ (writeFile fs f).present := by
  unfold writeFile
  by_cases h : f ∈ fs.present <;> simp [h]

theorem writeFile_mem_mono (fs : AssetsFS) (f g : AssetFile)
    (h : g ∈ fs.present) : g ∈ (writeFile fs f).present := by
  unfold writeFile
  by_cases hf : f ∈ fs.present <;> simp [hf, h]

theorem writeFile_dirExists (fs : AssetsFS) (f : AssetFile) :
    (writeFile fs f).dirExists = fs.dirExists := by
  unfold writeFile
  by_cases hf : f ∈ fs.present <;> simp [hf]

/-- Inversion of a successful `prepare`: the directory exists, the
dump, entry script and launcher were written, and no teardown event
was performed. -/
theorem prepare_ok_state (tt et : String) (fs fs1 : AssetsFS)
    (evs1 : List Ev)
    (h : prepare tt et fs = (Except.ok (), fs1, evs1)) :
    fs1.dirExists = true ∧
    AssetFile.dump ∈ fs1.present ∧
    AssetFile.target ∈ fs1.present ∧
    AssetFile.exec ∈ fs1.present ∧
    evs1.all (fun e => !(isTeardown e)) = true := by
  unfold prepare at h
  split_ifs at h with c1 c2 c3
  · exact absurd (congrArg (fun p => p.1) h) (by simp)
  · exact absurd (congrArg (fun p => p.1) h) (by simp)
  · exact absurd (congrArg (fun p => p.1) h) (by simp)
  · have hfs : fs1 = writeFile (writeFile (writeFile
        { fs with dirExists := true } AssetFile.dump)
        AssetFile.target) AssetFile.exec := by
      have := congrArg (fun p => p.2.1) h
      exact this.symm
    have hev : evs1 = [Ev.mkdir] ++
        ((assetFiles.filter
          (fun f => f ∈ ({ fs with dirExists := true } : AssetsFS).present)).map
            Ev.touch) ++
        [Ev.write AssetFile.dump, Ev.write AssetFile.target,
          Ev.write AssetFile.exec, Ev.chmod] := by
      have := congrArg (fun p => p.2.2) h
      exact this.symm
    refine ⟨?_, ?_, ?_, ?_, ?_⟩
    · rw [hfs, writeFile_dirExists, writeFile_dirExists, writeFile_dirExists]
    · rw [hfs]
      exact writeFile_mem_mono _ _ _ (writeFile_mem_mono _ _ _ (writeFile_mem _ _))
    · rw [hfs]
      exact writeFile_mem_mono _ _ _ (writeFile_mem _ _)
    · rw [hfs]
      exact writeFile_mem _ _
    · rw [hev]
      simp only [List.all_append, Bool.and_eq_true]
      refine ⟨⟨by decide, ?_⟩, by decide⟩
      rw [List.all_eq_true]
      intro f hf
      obtain ⟨g, _, rfl⟩ := List.mem_map.mp hf
      rfl

/-- C7 counterexample: after a successful `submit` on a fresh
invocation the result file does not exist — the job has not run yet,
and neither `prepare` nor `submit` ever creates `assets.ret` — so the
claim that all five artifact files still exist when `submit` returns
is false; only the dump, entry script and launcher exist. -/
theorem submit_ret_absent :
    AssetFile.ret ∉
      (SlurmRunner.submit ⟨Except.ok (), Except.ok (), Except.ok 7⟩
        freshFS).fs.present ∧
    AssetFile.log ∉
      (SlurmRunner.submit ⟨Except.ok (), Except.ok (), Except.ok 7⟩
        freshFS).fs.present ∧
    (SlurmRunner.submit ⟨Except.ok (), Except.ok (), Except.ok 7⟩
      freshFS).jobId = 7 := by
  decide

/-- C7 (amended): a successful `submit` returns the scheduler's job id
having performed no teardown: no result-file read, no `cleanup()`, no
unlink, no `rmdir` — the working directory and the three files written
during preparation (closure dump, entry script, launcher) still exist
when `submit` returns, and nothing is printed.  (The result and log
files do not exist yet: the job has not run.) -/
theorem submit_no_teardown (jid : Int) (fs0 : AssetsFS) :
    (SlurmRunner.submit ⟨Except.ok (), Except.ok (), Except.ok jid⟩
        fs0).jobId = jid ∧
    (SlurmRunner.submit ⟨Except.ok (), Except.ok (), Except.ok jid⟩
        fs0).printed = [] ∧
    (SlurmRunner.submit ⟨Except.ok (), Except.ok (), Except.ok jid⟩
        fs0).fs.dirExists = true ∧
    AssetFile.dump ∈ (SlurmRunner.submit
      ⟨Except.ok (), Except.ok (), Except.ok jid⟩ fs0).fs.present ∧
    AssetFile.target ∈ (SlurmRunner.submit
      ⟨Except.ok (), Except.ok (), Except.ok jid⟩ fs0).fs.present ∧
    AssetFile.exec ∈ (SlurmRunner.submit
      ⟨Except.ok (), Except.ok (), Except.ok jid⟩ fs0).fs.present ∧
    ((SlurmRunner.submit ⟨Except.ok (), Except.ok (), Except.ok jid⟩
        fs0).events.all (fun e => !(isTeardown e))) = true := by
  rcases hpe : prepare TARGET_TEMPLATE EXEC_TEMPLATE fs0 with ⟨r, fs1, evs1⟩
  have hr : r = Except.ok () := by
    have := prepare_defaults_ok fs0
    rw [hpe] at this
    exact this
  subst hr
  obtain ⟨hdir, hdump, htarget, hexec, hteardown⟩ :=
    prepare_ok_state TARGET_TEMPLATE EXEC_TEMPLATE fs0 fs1 evs1 hpe
  unfold SlurmRunner.submit
  rw [hpe]
  refine ⟨rfl, rfl, ?_, ?_, ?_, ?_, ?_⟩
  · show (writeFile fs1 AssetFile.exec).dirExists = true
    rw [writeFile_dirExists]
    exact hdir
  · exact writeFile_mem_mono _ _ _ hdump
  · exact writeFile_mem_mono _ _ _ htarget
  · exact writeFile_mem_mono _ _ _ hexec
  · show (evs1 ++ [Ev.write AssetFile.exec, Ev.sbatch]).all
      (fun e => !(isTeardown e)) = true
    simp only [List.all_append, Bool.and_eq_true]
    exact ⟨hteardown, by decide⟩

/-- A line printed by the report loop of `JobGroup.submit_all`
(`slurm.py` lines 251-255): either "Failed to submit job" followed by
the description of the i-th job, or "Submitted job with job id ⟨id⟩".
The failed report carries the enumerate index identifying which job
failed. -/
inductive Report
  | failed (idx : Nat)
  | submitted (jid : Int)
deriving DecidableEq, Repr

def isFailedReport : Report → Bool
  | Report.failed _ => true
  | Report.submitted _ => false

/-- `JobGroup.submit_all` (`slurm.py` lines 243-256): a list
comprehension `[job.submit() for job in self.jobs]` over the members
in insertion order (each member modelled by its submit-time
environment, each submission minting a fresh Asset Set), then the
enumerate loop printing one report per job id. -/
def JobGroup.submit_all (jobs : List SubmitEnv) : List Int × List Report :=
  let job_ids := jobs.map (fun j => (SlurmRunner.submit j freshFS).jobId)
  (job_ids,
    job_ids.enum.map (fun p =>
      if p.2 = -1 then Report.failed p.1 else Report.submitted p.2))

theorem countP_report_enumFrom (ids : List Int) (n : Nat) :
    ((List.enumFrom n ids).map (fun p =>
      if p.2 = -1 then Report.failed p.1 else Report.submitted p.2)).countP
        isFailedReport = ids.countP (fun jid => jid == -1) := by
  induction ids generalizing n with
  | nil => rfl
  | cons x xs ih =>
    simp only [List.enumFrom, List.map, List.countP_cons]
    rw [ih]
    by_cases hx : x = -1
    · simp [hx, isFailedReport]
    · simp [hx, isFailedReport]

/-- C6: `submit_all` submits every member in insertion order and
returns one identifier per member in that order (position `i` of the
result is the id of member `i`); a member whose submission fails
contributes the sentinel `-1` with one failure report naming its
index, no failure aborts the remaining members (every later member
still gets its own entry), and the number of failure reports equals
the number of `-1` entries. -/
theorem submit_all_spec (jobs : List SubmitEnv) :
    (JobGroup.submit_all jobs).1.length = jobs.length ∧
    (∀ (i : Nat) (env : SubmitEnv), jobs[i]? = some env →
      (JobGroup.submit_all jobs).1[i]? =
        some (SlurmRunner.submit env freshFS).jobId) ∧
    (∀ (i : Nat) (env : SubmitEnv), jobs[i]? = some env →
      SubmitEnv.failed env →
      (JobGroup.submit_all jobs).1[i]? = some (-1)) ∧
    (JobGroup.submit_all jobs).2.countP isFailedReport =
      (JobGroup.submit_all jobs).1.countP (fun jid => jid == -1) := by
  refine ⟨?_, ?_, ?_, ?_⟩
  · simp [JobGroup.submit_all]
  · intro i env h
    simp only [JobGroup.submit_all]
    rw [List.getElem?_map, h]
    rfl
  · intro i env h hf
    simp only [JobGroup.submit_all]
    rw [List.getElem?_map, h]
    have hid := (submit_failed_inv env freshFS hf).1
    simp [hid]
  · simp only [JobGroup.submit_all]
    exact countP_report_enumFrom _ 0

/-- C6 witness: three jobs where only the second submission raises
yield `[3, -1, 5]` and exactly one failure report. -/
theorem submit_all_witness :
    (JobGroup.submit_all
      [⟨Except.ok (), Except.ok (), Except.ok 3⟩,
       ⟨Except.ok (), Except.ok (), Except.error (SubmitErr.exc "boom")⟩,
       ⟨Except.ok (), Except.ok (), Except.ok 5⟩]).1[1]? = some (-1) ∧
    (JobGroup.submit_all
      [⟨Except.ok (), Except.ok (), Except.ok 3⟩,
       ⟨Except.ok (), Except.ok (), Except.error (SubmitErr.exc "boom")⟩,
       ⟨Except.ok (), Except.ok (), Except.ok 5⟩]).1 = [3, -1, 5] ∧
    (JobGroup.submit_all
      [⟨Except.ok (), Except.ok (), Except.ok 3⟩,
       ⟨Except.ok (), Except.ok (), Except.error (SubmitErr.exc "boom")⟩,
       ⟨Except.ok (), Except.ok (), Except.ok 5⟩]).2.countP isFailedReport = 1 :=
  ⟨(submit_all_spec
      [⟨Except.ok (), Except.ok (), Except.ok 3⟩,
       ⟨Except.ok (), Except.ok (), Except.error (SubmitErr.exc "boom")⟩,
       ⟨Except.ok (), Except.ok (), Except.ok 5⟩]).2.2.1 1
      ⟨Except.ok (), Except.ok (), Except.error (SubmitErr.exc "boom")⟩ rfl
      (Or.inr (Or.inr ⟨SubmitErr.exc "boom", rfl⟩)),
    by decide, by decide⟩

/-- `NotImplementedError` raised by `JobGroup.run_all`. -/
inductive NotImplementedErr
  | notImplemented (msg : String)
deriving DecidableEq, Repr

/-- `JobGroup.run_all` (`slurm.py` lines 237-241): unconditionally
`raise NotImplementedError("This method is not implemented yet.")`. -/
def JobGroup.run_all (_jobs : List SubmitEnv) : Except NotImplementedErr Unit :=
  Except.error
    (NotImplementedErr.notImplemented "This method is not implemented yet.")

/-- C8: for every Job Group — the empty group included — `run_all`
raises the "not implemented" error; it never returns normally, so it
is not a silent no-op. -/
theorem run_all_not_implemented (jobs : List SubmitEnv) :
    JobGroup.run_all jobs = Except.error
      (NotImplementedErr.notImplemented "This method is not implemented yet.") ∧
    ∀ u : Unit, JobGroup.run_all jobs ≠ Except.ok u := by
  exact ⟨rfl, fun u h => Except.noConfusion h⟩

/-- The attribute names of the module `runwith.common`: its imported
names (`import random`, `import string`,
`from dataclasses import dataclass, field`,
`from functools import partial`, `from pathlib import Path`,
`from typing import Any, Callable, Dict, Tuple`, `import cloudpickle`,
`import sh`) and its top-level definitions (`common.py`). -/
def commonModuleNames : List String :=
  ["random", "string", "dataclass", "field", "partial", "Path", "Any",
   "Callable", "Dict", "Tuple", "cloudpickle", "sh",
   "EXEC_TEMPLATE", "TARGET_TEMPLATE", "Assets", "prepare", "load_return"]

/-- The names `runwith/decorator.py` line 8 imports from
`runwith.common`. -/
def decoratorImportsFromCommon : List String := ["SH_TEMPLATE"]

/-- Outcome of loading the decorator module: Python resolves each
`from runwith.common import ...` name against the common module's
attributes and raises `ImportError` on the first one missing. -/
inductive ModuleLoad
  | loaded
  | importError (missing : String)
deriving DecidableEq, Repr

def loadDecoratorModule : ModuleLoad :=
  match decoratorImportsFromCommon.find?
      (fun n => !(commonModuleNames.contains n)) with
  | some n => ModuleLoad.importError n
  | none => ModuleLoad.loaded

/-- Any use of the `slurm` or `interpreter` decorator first requires
the decorator module to load; the call arguments never matter if the
module fails to import. -/
def runDecoratedCall (_decoratorName : String) (_argCount : Nat) :
    Except String Unit :=
  match loadDecoratorModule with
  | ModuleLoad.importError n =>
    Except.error ("ImportError: cannot import name " ++ n ++
      " from runwith.common")
  | ModuleLoad.loaded => Except.ok ()

/-- C9: `decorator.py` imports `SH_TEMPLATE` from `runwith.common`,
but the common module defines `EXEC_TEMPLATE` and no `SH_TEMPLATE`, so
loading the decorator module raises `ImportError` and every use of the
`slurm` or `interpreter` decorator — whatever the decorated function,
arguments or options — fails with that error. -/
theorem decorator_import_fails (d : String) (n : Nat) :
    "SH_TEMPLATE" ∉ commonModuleNames ∧
    "EXEC_TEMPLATE" ∈ commonModuleNames ∧
    "SH_TEMPLATE" ∈ decoratorImportsFromCommon ∧
    runDecoratedCall d n = Except.error
      "ImportError: cannot import name SH_TEMPLATE from runwith.common" := by
  refine ⟨by decide, by decide, by decide, ?_⟩
  have h : runDecoratedCall d n = runDecoratedCall "slurm" 0 := rfl
  rw [h]
  rfl
